import Mathlib

/-!
Shallow embedding of `src/alpaca.py` (Alpyca): a client binding for the
ASCOM Alpaca HTTP API.  The module defines one class, `Device`, which
builds a base URL from its constructor arguments, issues HTTP GET/PUT
requests through the `requests` library, and checks every response for
an error envelope.

Modelling choices:
- JSON values are a small inductive `JVal`; a decoded response body is a
  `JVal`.  Indexing `body["k"]` is `JVal.get`, returning `Option JVal`
  (a missing key raises `KeyError` in Python, modelled as `PyErr.keyError`).
- The HTTP transport is an oracle `Http : Request → Response`.  Every
  method records the requests it issues in a trace (`HttpResult.trace`)
  so that claims about which request is sent are statable.
- Python exceptions become values of `PyErr`; fallible code returns
  `Except PyErr α`.
- Python's `!= 0` comparison on the decoded `ErrorNumber` is `pyNeZero`:
  an int compares by value, `False == 0` and `True == 1` in Python, and
  any non-numeric value is `!= 0`.
-/

/-- A decoded JSON value (the result of `response.json()` in the source). -/
inductive JVal where
  | jnull
  | jbool (b : Bool)
  | jint (n : Int)
  | jstr (s : String)
  | jarr (elems : List JVal)
  | jobj (fields : List (String × JVal))

/-- First-match lookup in a JSON object's field list (Python dict indexing;
a decoded JSON object has distinct keys, so first-match is exact). -/
def lookupField : List (String × JVal) → String → Option JVal
  | [], _ => none
  | (k, v) :: rest, key => if k = key then some v else lookupField rest key

/-- Indexing a decoded JSON body: `body[key]`.  Returns `none` when the key is
absent (Python raises `KeyError`) and also when the body is not an object
(Python raises a `TypeError`; every claim concerns object bodies, where the
two coincide with "no such field"). -/
def JVal.get : JVal → String → Option JVal
  | .jobj fields, key => lookupField fields key
  | _, _ => none

/-- Python exceptions raised by the client. -/
inductive PyErr where
  | keyError (key : String)
  | alpacaError (errorNumber : JVal) (errorMessage : JVal)
  | valueError (value : JVal)
  | typeError

/-- HTTP verb used by the client (`requests.get` / `requests.put`). -/
inductive Verb where
  | get
  | put

/-- An HTTP request as issued by the client: verb, full URL, and the
form-encoded body (empty for GET). -/
structure Request where
  verb : Verb
  url : String
  formData : List (String × JVal)

/-- An HTTP response: status code and decoded JSON body. -/
structure Response where
  status_code : Nat
  body : JVal

/-- The HTTP transport: an oracle mapping each request to the server's
response. -/
def Http : Type := Request → Response

/-- Result of running a client method: the requests it issued, and its
return value or raised exception. -/
structure HttpResult (α : Type) where
  trace : List Request
  result : Except PyErr α

/-- Python's `x != 0` on the decoded `ErrorNumber` value: ints compare by
value, `False == 0` and `True == 1`, any other JSON value is `!= 0`. -/
def pyNeZero : JVal → Bool
  | .jint n => n != 0
  | .jbool b => b
  | _ => true

/-- Python `str.strip()` whitespace set. -/
def pyWhitespace (c : Char) : Bool :=
  c = ' ' || c = '\t' || c = '\n' || c = '\r' || c = '\x0b' || c = '\x0c'

/-- Python `str.strip()`: drop leading and trailing whitespace. -/
def pyStrip (s : String) : String :=
  String.mk (((s.toList.dropWhile pyWhitespace).reverse.dropWhile pyWhitespace).reverse)

/-- Split a character list at every comma, accumulating the current segment
in reverse. -/
def splitCommaList : List Char → List Char → List String
  | [], acc => [String.mk acc.reverse]
  | c :: rest, acc =>
    if c = ',' then String.mk acc.reverse :: splitCommaList rest []
    else splitCommaList rest (c :: acc)

/-- Python `s.split(",")`: split at every comma; the empty string yields one
empty segment, and adjacent or trailing commas yield empty segments. -/
def pySplitComma (s : String) : List String :=
  splitCommaList s.toList []

/-- The `Device` object after `__init__`: exactly the attributes the
constructor assigns to `self` (note `protocall` itself is not stored). -/
structure Device where
  address : String
  device_type : String
  device_number : Int
  api_version : Int
  base_url : String

/-- `Device.__init__`: store the endpoint attributes and build
`base_url = "%s://%s/api/v%d/%s/%d" % (protocall, address, api_version,
device_type, device_number)`. -/
def Device.init (address : String) (device_type : String) (device_number : Int)
    (protocall : String) (api_version : Int) : Device :=
  { address := address
    device_type := device_type
    device_number := device_number
    api_version := api_version
    base_url := protocall ++ "://" ++ address ++ "/api/v" ++ toString api_version
      ++ "/" ++ device_type ++ "/" ++ toString device_number }

/-- `Device.__check_error`: if the body's `ErrorNumber` is `!= 0`, raise
`Exception("Error %d: %s" % (ErrorNumber, ErrorMessage))` (modelled as
`PyErr.alpacaError` carrying both fields); else if the status code is 400
or 500, raise `Exception(body["Value"])`; otherwise succeed.  Indexing a
missing field raises `KeyError`. -/
def Device.check_error (response : Response) : Except PyErr Unit :=
  match response.body.get "ErrorNumber" with
  | none => .error (.keyError "ErrorNumber")
  | some en =>
    if pyNeZero en then
      match response.body.get "ErrorMessage" with
      | none => .error (.keyError "ErrorMessage")
      | some msg => .error (.alpacaError en msg)
    else if response.status_code = 400 || response.status_code = 500 then
      match response.body.get "Value" with
      | none => .error (.keyError "Value")
      | some v => .error (.valueError v)
    else .ok ()

/-- `Device._get`: GET `base_url/attribute`, check the response for errors,
return the body's `Value` field. -/
def Device._get (d : Device) (attr : String) (http : Http) : HttpResult JVal :=
  let req : Request := { verb := .get, url := d.base_url ++ "/" ++ attr, formData := [] }
  let response := http req
  { trace := [req]
    result :=
      match Device.check_error response with
      | .error e => .error e
      | .ok () =>
        match response.body.get "Value" with
        | some v => .ok v
        | none => .error (.keyError "Value") }

/-- `Device._put`: PUT `base_url/attribute` with form-encoded `data`, check
the response for errors, return the full decoded JSON body. -/
def Device._put (d : Device) (attr : String) (data : List (String × JVal))
    (http : Http) : HttpResult JVal :=
  let req : Request := { verb := .put, url := d.base_url ++ "/" ++ attr, formData := data }
  let response := http req
  { trace := [req]
    result :=
      match Device.check_error response with
      | .error e => .error e
      | .ok () => .ok response.body }

/-- Extract the `"Value"` key from a `_put` result (the source's trailing
`["Value"]` on the returned body). -/
def extractValue (r : HttpResult JVal) : HttpResult JVal :=
  { trace := r.trace
    result :=
      match r.result with
      | .error e => .error e
      | .ok body =>
        match body.get "Value" with
        | some v => .ok v
        | none => .error (.keyError "Value") }

/-- `Device.action`: PUT to `action` with body
`{"Action": action, "Parameters": args}`; return the body's `Value`. -/
def Device.action (d : Device) (action : String) (args : List JVal) (http : Http) :
    HttpResult JVal :=
  extractValue (d._put "action" [("Action", .jstr action), ("Parameters", .jarr args)] http)

/-- `Device.commandblind`: PUT to `commandblind` with
`{"Command": command, "Raw": raw}`; return the body's `Value`. -/
def Device.commandblind (d : Device) (command : String) (raw : Bool) (http : Http) :
    HttpResult JVal :=
  extractValue (d._put "commandblind" [("Command", .jstr command), ("Raw", .jbool raw)] http)

/-- `Device.commandbool`: PUT to `commandbool` with
`{"Command": command, "Raw": raw}`; return the body's `Value`. -/
def Device.commandbool (d : Device) (command : String) (raw : Bool) (http : Http) :
    HttpResult JVal :=
  extractValue (d._put "commandbool" [("Command", .jstr command), ("Raw", .jbool raw)] http)

/-- `Device.commandstring`: PUT to `commandstring` with
`{"Command": command, "Raw": raw}`; return the body's `Value`. -/
def Device.commandstring (d : Device) (command : String) (raw : Bool) (http : Http) :
    HttpResult JVal :=
  extractValue (d._put "commandstring" [("Command", .jstr command), ("Raw", .jbool raw)] http)

/-- `Device.connected`: with no argument (`none`), GET `connected` and return
its `Value`; with an argument, PUT `{"Connected": connected}` and return
Python `None` (modelled as `Option.none`). -/
def Device.connected (d : Device) (connected : Option Bool) (http : Http) :
    HttpResult (Option JVal) :=
  match connected with
  | none =>
    let r := d._get "connected" http
    { trace := r.trace, result := r.result.map some }
  | some b =>
    let r := d._put "connected" [("Connected", .jbool b)] http
    { trace := r.trace, result := r.result.map (fun _ => none) }

/-- `Device.description`: GET `name` (the source requests the `name`
attribute here). -/
def Device.description (d : Device) (http : Http) : HttpResult JVal :=
  d._get "name" http

/-- `Device.driverinfo`: GET `driverinfo`, split the string on commas, strip
each segment.  A non-string `Value` has no `.split` method in Python
(`TypeError`/`AttributeError`). -/
def Device.driverinfo (d : Device) (http : Http) : HttpResult (List String) :=
  let r := d._get "driverinfo" http
  { trace := r.trace
    result :=
      match r.result with
      | .error e => .error e
      | .ok (.jstr s) => .ok ((pySplitComma s).map pyStrip)
      | .ok _ => .error .typeError }

/-- `Device.driverversion`: GET `driverversion`. -/
def Device.driverversion (d : Device) (http : Http) : HttpResult JVal :=
  d._get "driverversion" http

/-- `Device.interfaceversion`: GET `interfaceversion`. -/
def Device.interfaceversion (d : Device) (http : Http) : HttpResult JVal :=
  d._get "interfaceversion" http

/-- `Device.name`: GET `name`. -/
def Device.name (d : Device) (http : Http) : HttpResult JVal :=
  d._get "name" http

/-- `Device.supportedactions`: GET `supportedactions`. -/
def Device.supportedactions (d : Device) (http : Http) : HttpResult JVal :=
  d._get "supportedactions" http

/-!
State-passing forms of the methods, for the frame property.  A Python method
call can write attributes of `self`; the run form of a method returns the
post-call object alongside the result.  Every method body in the source
contains no attribute assignment (only `__init__` assigns), so each run form
returns the receiver it was given.
-/

/-- Run form of `Device.action`: post-call object and result. -/
def Device.action_run (d : Device) (a : String) (args : List JVal) (http : Http) :
    Device × HttpResult JVal := (d, d.action a args http)

/-- Run form of `Device.commandblind`. -/
def Device.commandblind_run (d : Device) (c : String) (raw : Bool) (http : Http) :
    Device × HttpResult JVal := (d, d.commandblind c raw http)

/-- Run form of `Device.commandbool`. -/
def Device.commandbool_run (d : Device) (c : String) (raw : Bool) (http : Http) :
    Device × HttpResult JVal := (d, d.commandbool c raw http)

/-- Run form of `Device.commandstring`. -/
def Device.commandstring_run (d : Device) (c : String) (raw : Bool) (http : Http) :
    Device × HttpResult JVal := (d, d.commandstring c raw http)

/-- Run form of `Device.connected`. -/
def Device.connected_run (d : Device) (st : Option Bool) (http : Http) :
    Device × HttpResult (Option JVal) := (d, d.connected st http)

/-- Run form of `Device.description`. -/
def Device.description_run (d : Device) (http : Http) :
    Device × HttpResult JVal := (d, d.description http)

/-- Run form of `Device.driverinfo`. -/
def Device.driverinfo_run (d : Device) (http : Http) :
    Device × HttpResult (List String) := (d, d.driverinfo http)

/-- Run form of `Device.driverversion`. -/
def Device.driverversion_run (d : Device) (http : Http) :
    Device × HttpResult JVal := (d, d.driverversion http)

/-- Run form of `Device.interfaceversion`. -/
def Device.interfaceversion_run (d : Device) (http : Http) :
    Device × HttpResult JVal := (d, d.interfaceversion http)

/-- Run form of `Device.name`. -/
def Device.name_run (d : Device) (http : Http) :
    Device × HttpResult JVal := (d, d.name http)

/-- Run form of `Device.supportedactions`. -/
def Device.supportedactions_run (d : Device) (http : Http) :
    Device × HttpResult JVal := (d, d.supportedactions http)

/-- Run form of `Device._get`. -/
def Device.get_run (d : Device) (attr : String) (http : Http) :
    Device × HttpResult JVal := (d, d._get attr http)

/-- Run form of `Device._put`. -/
def Device.put_run (d : Device) (attr : String) (data : List (String × JVal)) (http : Http) :
    Device × HttpResult JVal := (d, d._put attr data http)

/-- A sample endpoint used by concrete witnesses. -/
def sampleDevice : Device := Device.init "127.0.0.1:11111" "telescope" 0 "http" 1

/-- Modelled from the spec: the documented base-URL template
`\x7bprotocol\x7d://\x7baddress\x7d/api/v\x7bapi_version\x7d/\x7bdevice_type\x7d/\x7bdevice_number\x7d`. -/
def baseUrlTemplate (protocol : String) (address : String) (api_version : Int)
    (device_type : String) (device_number : Int) : String :=
  protocol ++ "://" ++ address ++ "/api/v" ++ toString api_version ++ "/"
    ++ device_type ++ "/" ++ toString device_number

/-! Helper lemmas, shared by several claims. -/

theorem stringAppend_assoc (a b c : String) : a ++ b ++ c = a ++ (b ++ c) := by
  rcases a with ⟨xs⟩; rcases b with ⟨ys⟩; rcases c with ⟨zs⟩
  exact congrArg String.mk (List.append_assoc xs ys zs)

theorem checkError_protocol (resp : Response) (n : Int) (m : JVal)
    (hen : resp.body.get "ErrorNumber" = some (.jint n)) (hn : n ≠ 0)
    (hm : resp.body.get "ErrorMessage" = some m) :
    Device.check_error resp = .error (.alpacaError (.jint n) m) := by
  have hbne : (n != 0) = true := by simp [bne_iff_ne, hn]
  simp [Device.check_error, hen, hm, pyNeZero, hbne]

theorem checkError_transport (resp : Response) (v : JVal)
    (hen : resp.body.get "ErrorNumber" = some (.jint 0))
    (hs : resp.status_code = 400 ∨ resp.status_code = 500)
    (hv : resp.body.get "Value" = some v) :
    Device.check_error resp = .error (.valueError v) := by
  rcases hs with hs | hs <;> simp [Device.check_error, hen, hv, pyNeZero, hs]

theorem checkError_ok (resp : Response)
    (hen : resp.body.get "ErrorNumber" = some (.jint 0))
    (h4 : resp.status_code ≠ 400) (h5 : resp.status_code ≠ 500) :
    Device.check_error resp = .ok () := by
  simp [Device.check_error, hen, pyNeZero, h4, h5]

theorem checkError_missing (resp : Response)
    (hno : resp.body.get "ErrorNumber" = none) :
    Device.check_error resp = .error (.keyError "ErrorNumber") := by
  simp [Device.check_error, hno]

/-- C1: for every tuple (protocol, address, api_version, device_type,
device_number), the constructor stores a base URL exactly equal to the
documented template. -/
theorem base_url_matches_template (protocol : String) (address : String)
    (device_type : String) (device_number : Int) (api_version : Int) :
    (Device.init address device_type device_number protocol api_version).base_url
      = baseUrlTemplate protocol address api_version device_type device_number := rfl

/-- C2: whenever the decoded envelope has `ErrorNumber != 0`, every wrapping
method fails with an error carrying that `ErrorNumber` and that
`ErrorMessage`, regardless of the HTTP status code. -/
theorem protocol_error_fails_every_method (d : Device) (resp : Response)
    (n : Int) (m : JVal)
    (hen : resp.body.get "ErrorNumber" = some (.jint n)) (hn : n ≠ 0)
    (hm : resp.body.get "ErrorMessage" = some m)
    (a : String) (args : List JVal) (c : String) (raw : Bool) (st : Bool) :
    (d.action a args (fun _ => resp)).result = .error (.alpacaError (.jint n) m)
    ∧ (d.commandblind c raw (fun _ => resp)).result = .error (.alpacaError (.jint n) m)
    ∧ (d.commandbool c raw (fun _ => resp)).result = .error (.alpacaError (.jint n) m)
    ∧ (d.commandstring c raw (fun _ => resp)).result = .error (.alpacaError (.jint n) m)
    ∧ (d.connected none (fun _ => resp)).result = .error (.alpacaError (.jint n) m)
    ∧ (d.connected (some st) (fun _ => resp)).result = .error (.alpacaError (.jint n) m)
    ∧ (d.description (fun _ => resp)).result = .error (.alpacaError (.jint n) m)
    ∧ (d.driverinfo (fun _ => resp)).result = .error (.alpacaError (.jint n) m)
    ∧ (d.driverversion (fun _ => resp)).result = .error (.alpacaError (.jint n) m)
    ∧ (d.interfaceversion (fun _ => resp)).result = .error (.alpacaError (.jint n) m)
    ∧ (d.name (fun _ => resp)).result = .error (.alpacaError (.jint n) m)
    ∧ (d.supportedactions (fun _ => resp)).result = .error (.alpacaError (.jint n) m) := by
  have hce : Device.check_error resp = .error (.alpacaError (.jint n) m) :=
    checkError_protocol resp n m hen hn hm
  refine ⟨?_, ?_, ?_, ?_, ?_, ?_, ?_, ?_, ?_, ?_, ?_, ?_⟩ <;>
    simp [Device.action, Device.commandblind, Device.commandbool, Device.commandstring,
      Device.connected, Device.description, Device.driverinfo, Device.driverversion,
      Device.interfaceversion, Device.name, Device.supportedactions,
      Device._get, Device._put, extractValue, Except.map, hce]

/-- Concrete instance of C2: a response with `ErrorNumber: 1,
`ErrorMessage: "not supported"` makes `action` fail with both preserved. -/
theorem protocol_error_fails_every_method_witness :
    (sampleDevice.action "park" []
        (fun _ => { status_code := 200,
                    body := .jobj [("Value", .jnull), ("ErrorNumber", .jint 1),
                                   ("ErrorMessage", .jstr "not supported")] })).result
      = .error (.alpacaError (.jint 1) (.jstr "not supported")) :=
  (protocol_error_fails_every_method sampleDevice
    { status_code := 200,
      body := .jobj [("Value", .jnull), ("ErrorNumber", .jint 1),
                     ("ErrorMessage", .jstr "not supported")] }
    1 (.jstr "not supported") rfl (by decide) rfl "park" [] "cmd" false true).1

/-- C3: for a response with HTTP status 400 or 500 whose envelope has
`ErrorNumber == 0`, every operation fails with an error carrying exactly the
envelope's `Value` field. -/
theorem transport_error_fails_every_method (d : Device) (resp : Response) (v : JVal)
    (hen : resp.body.get "ErrorNumber" = some (.jint 0))
    (hs : resp.status_code = 400 ∨ resp.status_code = 500)
    (hv : resp.body.get "Value" = some v)
    (a : String) (args : List JVal) (c : String) (raw : Bool) (st : Bool) :
    (d.action a args (fun _ => resp)).result = .error (.valueError v)
    ∧ (d.commandblind c raw (fun _ => resp)).result = .error (.valueError v)
    ∧ (d.commandbool c raw (fun _ => resp)).result = .error (.valueError v)
    ∧ (d.commandstring c raw (fun _ => resp)).result = .error (.valueError v)
    ∧ (d.connected none (fun _ => resp)).result = .error (.valueError v)
    ∧ (d.connected (some st) (fun _ => resp)).result = .error (.valueError v)
    ∧ (d.description (fun _ => resp)).result = .error (.valueError v)
    ∧ (d.driverinfo (fun _ => resp)).result = .error (.valueError v)
    ∧ (d.driverversion (fun _ => resp)).result = .error (.valueError v)
    ∧ (d.interfaceversion (fun _ => resp)).result = .error (.valueError v)
    ∧ (d.name (fun _ => resp)).result = .error (.valueError v)
    ∧ (d.supportedactions (fun _ => resp)).result = .error (.valueError v) := by
  have hce : Device.check_error resp = .error (.valueError v) :=
    checkError_transport resp v hen hs hv
  refine ⟨?_, ?_, ?_, ?_, ?_, ?_, ?_, ?_, ?_, ?_, ?_, ?_⟩ <;>
    simp [Device.action, Device.commandblind, Device.commandbool, Device.commandstring,
      Device.connected, Device.description, Device.driverinfo, Device.driverversion,
      Device.interfaceversion, Device.name, Device.supportedactions,
      Device._get, Device._put, extractValue, Except.map, hce]

/-- Concrete instance of C3: HTTP status 400 with `Value: "bad request"` and
`ErrorNumber: 0` makes `name` fail carrying `"bad request"`. -/
theorem transport_error_fails_every_method_witness :
    (sampleDevice.name
        (fun _ => { status_code := 400,
                    body := .jobj [("Value", .jstr "bad request"), ("ErrorNumber", .jint 0),
                                   ("ErrorMessage", .jstr "")] })).result
      = .error (.valueError (.jstr "bad request")) :=
  (transport_error_fails_every_method sampleDevice
    { status_code := 400,
      body := .jobj [("Value", .jstr "bad request"), ("ErrorNumber", .jint 0),
                     ("ErrorMessage", .jstr "")] }
    (.jstr "bad request") rfl (Or.inl rfl) rfl
    "park" [] "cmd" false true).2.2.2.2.2.2.2.2.2.2.1

/-- C4: for a response with `ErrorNumber == 0` and an HTTP status other than
400 and 500 (404, 503, ... included), no error is raised: the error check
succeeds, the GET primitive returns the envelope's `Value`, and the PUT
primitive returns the full decoded JSON body. -/
theorem non_400_500_is_silently_accepted (d : Device) (resp : Response) (v : JVal)
    (hen : resp.body.get "ErrorNumber" = some (.jint 0))
    (h4 : resp.status_code ≠ 400) (h5 : resp.status_code ≠ 500)
    (hv : resp.body.get "Value" = some v)
    (attr : String) (data : List (String × JVal)) :
    Device.check_error resp = .ok ()
    ∧ (d._get attr (fun _ => resp)).result = .ok v
    ∧ (d._put attr data (fun _ => resp)).result = .ok resp.body := by
  have hce : Device.check_error resp = .ok () := checkError_ok resp hen h4 h5
  refine ⟨hce, ?_, ?_⟩ <;> simp [Device._get, Device._put, hv, hce]

/-- Concrete instance of C4: HTTP status 404 with a success envelope is
accepted and the `Value` is returned. -/
theorem non_400_500_is_silently_accepted_witness :
    (sampleDevice._get "name"
        (fun _ => { status_code := 404,
                    body := .jobj [("Value", .jstr "ok anyway"), ("ErrorNumber", .jint 0),
                                   ("ErrorMessage", .jstr "")] })).result
      = .ok (.jstr "ok anyway") :=
  (non_400_500_is_silently_accepted sampleDevice
    { status_code := 404,
      body := .jobj [("Value", .jstr "ok anyway"), ("ErrorNumber", .jint 0),
                     ("ErrorMessage", .jstr "")] }
    (.jstr "ok anyway") rfl (by decide) (by decide) rfl "name" []).2.1

/-- C5: `connected` with no argument issues a GET to the `connected`
attribute and returns the envelope's boolean `Value`; `connected state`
issues a PUT to `connected` with form body `Connected := state` and returns
no value (Python `None`). -/
theorem connected_get_and_put (d : Device) (st : Bool) (b : Bool)
    (respG : Response) (respP : Response)
    (hgEn : respG.body.get "ErrorNumber" = some (.jint 0))
    (hg4 : respG.status_code ≠ 400) (hg5 : respG.status_code ≠ 500)
    (hgV : respG.body.get "Value" = some (.jbool b))
    (hpEn : respP.body.get "ErrorNumber" = some (.jint 0))
    (hp4 : respP.status_code ≠ 400) (hp5 : respP.status_code ≠ 500) :
    (d.connected none (fun _ => respG)).trace
        = [{ verb := .get, url := d.base_url ++ "/connected", formData := [] }]
    ∧ (d.connected none (fun _ => respG)).result = .ok (some (.jbool b))
    ∧ (d.connected (some st) (fun _ => respP)).trace
        = [{ verb := .put, url := d.base_url ++ "/connected",
             formData := [("Connected", .jbool st)] }]
    ∧ (d.connected (some st) (fun _ => respP)).result = .ok none := by
  have hceG : Device.check_error respG = .ok () := checkError_ok respG hgEn hg4 hg5
  have hceP : Device.check_error respP = .ok () := checkError_ok respP hpEn hp4 hp5
  refine ⟨?_, ?_, ?_, ?_⟩ <;>
    simp [Device.connected, Device._get, Device._put, Except.map, hceG, hceP, hgV,
      stringAppend_assoc]

/-- Concrete instance of C5: `connected` with no argument returns the boolean
`Value` of a success envelope. -/
theorem connected_get_and_put_witness :
    (sampleDevice.connected none
        (fun _ => { status_code := 200,
                    body := .jobj [("Value", .jbool true), ("ErrorNumber", .jint 0),
                                   ("ErrorMessage", .jstr "")] })).result
      = .ok (some (.jbool true)) :=
  (connected_get_and_put sampleDevice false true
    { status_code := 200,
      body := .jobj [("Value", .jbool true), ("ErrorNumber", .jint 0),
                     ("ErrorMessage", .jstr "")] }
    { status_code := 200,
      body := .jobj [("Value", .jbool true), ("ErrorNumber", .jint 0),
                     ("ErrorMessage", .jstr "")] }
    rfl (by decide) (by decide) rfl rfl (by decide) (by decide)).2.1

/-- C6: for every string `Value` of the `driverinfo` attribute, `driverinfo`
splits it on commas, strips each segment, and returns the segments in order;
in particular on input `"A, B ,C"` the segments are `["A", "B", "C"]`. -/
theorem driverinfo_splits_and_strips (d : Device) (resp : Response) (s : String)
    (hen : resp.body.get "ErrorNumber" = some (.jint 0))
    (h4 : resp.status_code ≠ 400) (h5 : resp.status_code ≠ 500)
    (hv : resp.body.get "Value" = some (.jstr s)) :
    (d.driverinfo (fun _ => resp)).result = .ok ((pySplitComma s).map pyStrip)
    ∧ (pySplitComma "A, B ,C").map pyStrip = ["A", "B", "C"] := by
  have hce : Device.check_error resp = .ok () := checkError_ok resp hen h4 h5
  refine ⟨?_, by decide⟩
  simp [Device.driverinfo, Device._get, pySplitComma, hce, hv]

/-- Concrete instance of C6: `driverinfo` on `Value: "A, B ,C"` returns
`["A", "B", "C"]`. -/
theorem driverinfo_splits_and_strips_witness :
    (sampleDevice.driverinfo
        (fun _ => { status_code := 200,
                    body := .jobj [("Value", .jstr "A, B ,C"), ("ErrorNumber", .jint 0),
                                   ("ErrorMessage", .jstr "")] })).result
      = .ok ["A", "B", "C"] := by
  have h := driverinfo_splits_and_strips sampleDevice
    { status_code := 200,
      body := .jobj [("Value", .jstr "A, B ,C"), ("ErrorNumber", .jint 0),
                     ("ErrorMessage", .jstr "")] }
    "A, B ,C" rfl (by decide) (by decide) rfl
  rw [h.1, h.2]

/-- C7: `action name args` issues a PUT to the `action` attribute with form
body `Action := name, Parameters := args` and returns the envelope's
`Value`. -/
theorem action_put_body_and_value (d : Device) (a : String) (args : List JVal)
    (resp : Response) (v : JVal)
    (hen : resp.body.get "ErrorNumber" = some (.jint 0))
    (h4 : resp.status_code ≠ 400) (h5 : resp.status_code ≠ 500)
    (hv : resp.body.get "Value" = some v) :
    (d.action a args (fun _ => resp)).trace
        = [{ verb := .put, url := d.base_url ++ "/action",
             formData := [("Action", .jstr a), ("Parameters", .jarr args)] }]
    ∧ (d.action a args (fun _ => resp)).result = .ok v := by
  have hce : Device.check_error resp = .ok () := checkError_ok resp hen h4 h5
  refine ⟨?_, ?_⟩ <;>
    simp [Device.action, Device._put, extractValue, hce, hv, stringAppend_assoc]

/-- Concrete instance of C7: `action "park"` sends
`Action := "park", Parameters := []` and returns the `Value`. -/
theorem action_put_body_and_value_witness :
    (sampleDevice.action "park" []
        (fun _ => { status_code := 200,
                    body := .jobj [("Value", .jint 7), ("ErrorNumber", .jint 0),
                                   ("ErrorMessage", .jstr "")] })).trace
      = [{ verb := .put, url := sampleDevice.base_url ++ "/action",
           formData := [("Action", .jstr "park"), ("Parameters", .jarr [])] }]
    ∧ (sampleDevice.action "park" []
        (fun _ => { status_code := 200,
                    body := .jobj [("Value", .jint 7), ("ErrorNumber", .jint 0),
                                   ("ErrorMessage", .jstr "")] })).result
      = .ok (.jint 7) :=
  action_put_body_and_value sampleDevice "park" []
    { status_code := 200,
      body := .jobj [("Value", .jint 7), ("ErrorNumber", .jint 0),
                     ("ErrorMessage", .jstr "")] }
    (.jint 7) rfl (by decide) (by decide) rfl

/-- C8: `description` and `name` issue the same GET to the `name` attribute
and agree on every transport, hence on every server response. -/
theorem description_equals_name (d : Device) (http : Http) :
    d.description http = d.name http
    ∧ (d.description http).trace
        = [{ verb := .get, url := d.base_url ++ "/name", formData := [] }]
    ∧ (d.name http).trace
        = [{ verb := .get, url := d.base_url ++ "/name", formData := [] }] := by
  refine ⟨rfl, ?_, ?_⟩ <;>
    simp [Device.description, Device.name, Device._get, stringAppend_assoc]

/-- C9: the endpoint descriptor is immutable: the run form of every operation
returns the receiver object unchanged, so `address`, `device_type`,
`device_number`, `api_version` and `base_url` are unchanged by every call. -/
theorem no_operation_mutates_device (d : Device) (http : Http)
    (a : String) (args : List JVal) (c : String) (raw : Bool) (st : Option Bool)
    (attr : String) (data : List (String × JVal)) :
    (d.action_run a args http).1 = d
    ∧ (d.commandblind_run c raw http).1 = d
    ∧ (d.commandbool_run c raw http).1 = d
    ∧ (d.commandstring_run c raw http).1 = d
    ∧ (d.connected_run st http).1 = d
    ∧ (d.description_run http).1 = d
    ∧ (d.driverinfo_run http).1 = d
    ∧ (d.driverversion_run http).1 = d
    ∧ (d.interfaceversion_run http).1 = d
    ∧ (d.name_run http).1 = d
    ∧ (d.supportedactions_run http).1 = d
    ∧ (d.get_run attr http).1 = d
    ∧ (d.put_run attr data http).1 = d
    ∧ (d.action_run a args http).1.address = d.address
    ∧ (d.action_run a args http).1.device_type = d.device_type
    ∧ (d.action_run a args http).1.device_number = d.device_number
    ∧ (d.action_run a args http).1.api_version = d.api_version
    ∧ (d.action_run a args http).1.base_url = d.base_url :=
  ⟨rfl, rfl, rfl, rfl, rfl, rfl, rfl, rfl, rfl, rfl, rfl, rfl, rfl,
   rfl, rfl, rfl, rfl, rfl⟩

/-- C10: the error check indexes `ErrorNumber` unconditionally, so for every
response whose JSON object body lacks an `ErrorNumber` field, every operation
fails with a `KeyError`, whatever the HTTP status; no operation returns a
`Value` from such a response. -/
theorem missing_errornumber_fails_every_method (d : Device) (resp : Response)
    (fields : List (String × JVal)) (hb : resp.body = .jobj fields)
    (hno : lookupField fields "ErrorNumber" = none)
    (a : String) (args : List JVal) (c : String) (raw : Bool) (st : Bool) :
    (d.action a args (fun _ => resp)).result = .error (.keyError "ErrorNumber")
    ∧ (d.commandblind c raw (fun _ => resp)).result = .error (.keyError "ErrorNumber")
    ∧ (d.commandbool c raw (fun _ => resp)).result = .error (.keyError "ErrorNumber")
    ∧ (d.commandstring c raw (fun _ => resp)).result = .error (.keyError "ErrorNumber")
    ∧ (d.connected none (fun _ => resp)).result = .error (.keyError "ErrorNumber")
    ∧ (d.connected (some st) (fun _ => resp)).result = .error (.keyError "ErrorNumber")
    ∧ (d.description (fun _ => resp)).result = .error (.keyError "ErrorNumber")
    ∧ (d.driverinfo (fun _ => resp)).result = .error (.keyError "ErrorNumber")
    ∧ (d.driverversion (fun _ => resp)).result = .error (.keyError "ErrorNumber")
    ∧ (d.interfaceversion (fun _ => resp)).result = .error (.keyError "ErrorNumber")
    ∧ (d.name (fun _ => resp)).result = .error (.keyError "ErrorNumber")
    ∧ (d.supportedactions (fun _ => resp)).result = .error (.keyError "ErrorNumber") := by
  have hget : resp.body.get "ErrorNumber" = none := by simp [hb, JVal.get, hno]
  have hce : Device.check_error resp = .error (.keyError "ErrorNumber") :=
    checkError_missing resp hget
  refine ⟨?_, ?_, ?_, ?_, ?_, ?_, ?_, ?_, ?_, ?_, ?_, ?_⟩ <;>
    simp [Device.action, Device.commandblind, Device.commandbool, Device.commandstring,
      Device.connected, Device.description, Device.driverinfo, Device.driverversion,
      Device.interfaceversion, Device.name, Device.supportedactions,
      Device._get, Device._put, extractValue, Except.map, hce]

/-- Concrete instance of C10: a 200 response whose body has only a `Value`
field makes `name` fail with a `KeyError` on `ErrorNumber`. -/
theorem missing_errornumber_fails_every_method_witness :
    (sampleDevice.name
        (fun _ => { status_code := 200, body := .jobj [("Value", .jbool true)] })).result
      = .error (.keyError "ErrorNumber") :=
  (missing_errornumber_fails_every_method sampleDevice
    { status_code := 200, body := .jobj [("Value", .jbool true)] }
    [("Value", .jbool true)] rfl rfl
    "park" [] "cmd" false true).2.2.2.2.2.2.2.2.2.2.1
